import Mathlib

/-!
Verification of the spirograph transform pipeline.

The source is a numpy-based drawing pipeline: an angle sequence theta is
generated by np.linspace, then a chain of pure transforms maps
(x, y, theta) to new coordinate sequences.  We embed the numeric code over
the reals: numpy arrays become List even though numpy computes in doubles,
elementwise array arithmetic becomes List.zipWith / List.map, and a Python
raise of ValueError becomes Except.error.  Each definition mirrors one
source function and keeps its name and parameter order.
-/

open Real

/-- np.deg2rad: convert degrees to radians. -/
noncomputable def deg2rad (d : ℝ) : ℝ := d * π / 180

/-- np.linspace start stop num with endpoint=True: num evenly spaced samples
from start to stop, step (stop - start) / (num - 1). -/
noncomputable def linspace (start stop : ℝ) (num : ℕ) : List ℝ :=
  (List.range num).map (fun (i : ℕ) => start + (i : ℝ) * ((stop - start) / ((num : ℝ) - 1)))

/-- Python float modulo: a % b = a - b * floor (a / b), the sign follows b. -/
noncomputable def pymod (a b : ℝ) : ℝ := a - b * (⌊a / b⌋ : ℝ)

/-- np.clip v lo hi: lower bound applied first, then the upper bound. -/
noncomputable def np_clip (v lo hi : ℝ) : ℝ := min (max v lo) hi

/-- Elementwise combination of three equal-length arrays, the list analogue
of a vectorized numpy expression over three arrays. -/
def zipWith3 {α β γ δ : Type*} (f : α → β → γ → δ) : List α → List β → List γ → List δ
  | a :: as, b :: bs, c :: cs => f a b c :: zipWith3 f as bs cs
  | _, _, _ => []

/-- Tail worker for np.maximum.accumulate, carrying the running maximum. -/
noncomputable def maximumAccumulateAux (m : ℝ) : List ℝ → List ℝ
  | [] => []
  | b :: bs => max m b :: maximumAccumulateAux (max m b) bs

/-- np.maximum.accumulate: running maximum of a sequence. -/
noncomputable def maximumAccumulate : List ℝ → List ℝ
  | [] => []
  | a :: as => a :: maximumAccumulateAux a as

/-- np.interp t xp fp: piecewise-linear interpolation with clamping at both
ends, assuming xp is sorted. -/
noncomputable def interp (t : ℝ) : List ℝ → List ℝ → ℝ
  | x0 :: x1 :: xs, f0 :: f1 :: fs =>
    if t ≤ x0 then f0
    else if t ≤ x1 then f0 + (f1 - f0) * (t - x0) / (x1 - x0)
    else interp t (x1 :: xs) (f1 :: fs)
  | _ :: _, f0 :: _ => f0
  | _, _ => 0

/-- External path provider used by svg_path_transform: total is
svg_path.length(), lengthTo t is svg_path.length(0, t), and point t is the
complex point svg_path.point(t) as a real pair. -/
structure SvgPath where
  total : ℝ
  lengthTo : ℝ → ℝ
  point : ℝ → ℝ × ℝ

/-- The rotation_rate_function argument of
paper_rotation_transform_non_linear: either a string naming a built-in rate
shape or a callable. -/
inductive RateFn where
  | name (s : String)
  | callable (f : ℝ → ℝ)

/-- standard_transforms.circular_motion. -/
noncomputable def circular_motion (x y theta : List ℝ) (radius : ℝ := 50) (speed : ℝ := 0.01) : List ℝ × List ℝ :=
  (List.zipWith (fun xi ti => xi + radius * cos (speed * ti)) x theta,
   List.zipWith (fun yi ti => yi + radius * sin (speed * ti)) y theta)

/-- standard_transforms.translate_scale_rotate_transform: scale x and y
independently, rotate by rotation_angle degrees, then translate. -/
noncomputable def translate_scale_rotate_transform (x y theta : List ℝ)
    (x_offset : ℝ := 0) (y_offset : ℝ := 0) (scale_x : ℝ := 1.0) (scale_y : ℝ := 1.0)
    (rotation_angle : ℝ := 0) : List ℝ × List ℝ :=
  let rotation_radians := deg2rad rotation_angle
  (List.zipWith (fun xi yi =>
      xi * scale_x * cos rotation_radians - yi * scale_y * sin rotation_radians + x_offset) x y,
   List.zipWith (fun xi yi =>
      xi * scale_x * sin rotation_radians + yi * scale_y * cos rotation_radians + y_offset) x y)

/-- standard_transforms.paper_rotation: rotate sample i by
phi i = (theta i / theta_max) * deg2rad degrees, theta_max = theta[-1]. -/
noncomputable def paper_rotation (x y theta : List ℝ) (degrees : ℝ) : List ℝ × List ℝ :=
  let total_rotation_radians := deg2rad degrees
  let theta_max := theta.getLastD 0
  (zipWith3 (fun xi yi ti =>
      xi * cos (ti / theta_max * total_rotation_radians) - yi * sin (ti / theta_max * total_rotation_radians)) x y theta,
   zipWith3 (fun xi yi ti =>
      xi * sin (ti / theta_max * total_rotation_radians) + yi * cos (ti / theta_max * total_rotation_radians)) x y theta)

/-- standard_transforms.mystery_lines: r = spiral_rate + amplitude * sin
(frequency * theta) with amplitude = spiral_rate; the source adds
r * sin theta to both coordinates. -/
noncomputable def mystery_lines (x y theta : List ℝ) (spiral_rate frequency : ℝ) : List ℝ × List ℝ :=
  let amplitude := spiral_rate
  (List.zipWith (fun xi ti => xi + (spiral_rate + amplitude * sin (frequency * ti)) * sin ti) x theta,
   List.zipWith (fun yi ti => yi + (spiral_rate + amplitude * sin (frequency * ti)) * sin ti) y theta)

/-- standard_transforms.linear_translation_transform. -/
noncomputable def linear_translation_transform (x y theta : List ℝ)
    (total_distance movement_angle_degrees : ℝ) : List ℝ × List ℝ :=
  let movement_angle := deg2rad movement_angle_degrees
  let theta_max := theta.getLastD 0
  (List.zipWith (fun xi ti => xi + ti / theta_max * total_distance * cos movement_angle) x theta,
   List.zipWith (fun yi ti => yi + ti / theta_max * total_distance * sin movement_angle) y theta)

/-- standard_transforms.paper_rotation_transform_non_linear: the rate shape
is selected by name (linear, quadratic, sinusoidal) or a callable whose
output is clipped to the unit interval; any other name raises ValueError. -/
noncomputable def paper_rotation_transform_non_linear (x y theta : List ℝ) (degrees : ℝ)
    (rotation_rate_function : RateFn) : Except String (List ℝ × List ℝ) :=
  let total_rotation_radians := deg2rad degrees
  let theta_max := theta.getLastD 0
  let phiFn : Option (ℝ → ℝ) :=
    match rotation_rate_function with
    | .name s =>
      if s = "linear" then some (fun ti => ti / theta_max * total_rotation_radians)
      else if s = "quadratic" then some (fun ti => (ti / theta_max) ^ 2 * total_rotation_radians)
      else if s = "sinusoidal" then some (fun ti => sin (ti / theta_max * π / 2) * total_rotation_radians)
      else none
    | .callable f => some (fun ti => np_clip (f (ti / theta_max)) 0 1 * total_rotation_radians)
  match phiFn with
  | some phi =>
    .ok (zipWith3 (fun xi yi ti => xi * cos (phi ti) - yi * sin (phi ti)) x y theta,
         zipWith3 (fun xi yi ti => xi * sin (phi ti) + yi * cos (phi ti)) x y theta)
  | none => .error (r"Invalid rotation_rate_function. Use linear, quadratic, sinusoidal, or provide a function.")

/-- standard_transforms.svg_path_transform: resample the path by arclength.
The incoming x and y are never read; the returned pair is built from theta
and the path alone. -/
noncomputable def svg_path_transform (x y theta : List ℝ) (svg_path : SvgPath)
    (scale : ℝ := 1.0) (offset_x : ℝ := 0.0) (offset_y : ℝ := 0.0) : List ℝ × List ℝ :=
  let theta_normalized := theta.map (fun ti => ti / theta.getLastD 0)
  let total_length := svg_path.total
  let distances := theta_normalized.map (fun tn => tn * total_length)
  let num_samples := 10000
  let t_vals := linspace 0 1 num_samples
  let cumulative_lengths := t_vals.map svg_path.lengthTo
  let cumulative_lengths2 := maximumAccumulate cumulative_lengths
  let cumulative_lengths3 := cumulative_lengths2.set (cumulative_lengths2.length - 1) total_length
  let t_values := distances.map (fun dist => interp dist cumulative_lengths3 t_vals)
  let points := t_values.map svg_path.point
  let path_x := points.map (fun p => p.1)
  let path_y := points.map (fun p => p.2)
  (path_x.map (fun v => v * scale + offset_x), path_y.map (fun v => v * scale + offset_y))

/-- spiral_transforms.spiral_transform: r = 1 + spiral_rate * theta. -/
noncomputable def spiral_transform (x y theta : List ℝ) (spiral_rate : ℝ)
    (a : ℝ := 1) (b : ℝ := 1) : List ℝ × List ℝ :=
  (List.zipWith (fun xi ti => xi + a * (1 + spiral_rate * ti) * cos ti) x theta,
   List.zipWith (fun yi ti => yi + b * (1 + spiral_rate * ti) * sin ti) y theta)

/-- spiral_transforms.spiral_oscillator: r oscillates around spiral_rate
with amplitude = spiral_rate. -/
noncomputable def spiral_oscillator (x y theta : List ℝ) (spiral_rate frequency : ℝ)
    (const : ℝ := 0) (a : ℝ := 1) (b : ℝ := 1) : List ℝ × List ℝ :=
  let amplitude := spiral_rate
  (List.zipWith (fun xi ti =>
      xi + a * (spiral_rate + amplitude * sin (frequency * ti) + const) * cos ti) x theta,
   List.zipWith (fun yi ti =>
      yi + b * (spiral_rate + amplitude * sin (frequency * ti) + const) * sin ti) y theta)

/-- spiral_transforms.variable_spiral_transform: quadratic radial growth
from start_rate to end_rate over the sweep, theta_max = theta[-1]. -/
noncomputable def variable_spiral_transform (x y theta : List ℝ) (start_rate end_rate : ℝ)
    (a : ℝ := 1) (b : ℝ := 1) : List ℝ × List ℝ :=
  let theta_max := theta.getLastD 0
  let delta_rate := end_rate - start_rate
  (List.zipWith (fun xi ti =>
      xi + a * (start_rate * ti + delta_rate / (2 * theta_max) * ti ^ 2) * cos ti) x theta,
   List.zipWith (fun yi ti =>
      yi + b * (start_rate * ti + delta_rate / (2 * theta_max) * ti ^ 2) * sin ti) y theta)

/-- spiral_transforms.variable_spiral_triangle_transform.  The source
allocates zero buffers shaped like x and y and then overwrites one slot per
theta sample, ignoring the incoming coordinate values entirely, so with
index-aligned inputs the result is a pure function of theta; side2 is
unused in the source as well. -/
noncomputable def variable_spiral_triangle_transform (x y theta : List ℝ)
    (start_rate end_rate : ℝ) (side1 : ℝ := 1) (side2 : ℝ := 1) (side3 : ℝ := 1) : List ℝ × List ℝ :=
  let vertex1 : ℝ × ℝ := (0, 1)
  let vertex2 : ℝ × ℝ := (-side1 * Real.sqrt 3 / 2, -0.5 * side1)
  let vertex3 : ℝ × ℝ := (side3 * Real.sqrt 3 / 2, -0.5 * side3)
  let theta_max := theta.getLastD 0
  let delta_rate := end_rate - start_rate
  let r := fun ti => start_rate * ti + delta_rate / (2 * theta_max) * ti ^ 2
  let boundary := fun ti =>
    let norm_angle := pymod ti (2 * π)
    if norm_angle < 2 * π / 3 then
      let t := norm_angle / (2 * π / 3)
      ((1 - t) * vertex1.1 + t * vertex2.1, (1 - t) * vertex1.2 + t * vertex2.2)
    else if norm_angle < 4 * π / 3 then
      let t := (norm_angle - 2 * π / 3) / (2 * π / 3)
      ((1 - t) * vertex2.1 + t * vertex3.1, (1 - t) * vertex2.2 + t * vertex3.2)
    else
      let t := (norm_angle - 4 * π / 3) / (2 * π / 3)
      ((1 - t) * vertex3.1 + t * vertex1.1, (1 - t) * vertex3.2 + t * vertex1.2)
  (theta.map (fun ti => r ti * (boundary ti).1), theta.map (fun ti => r ti * (boundary ti).2))

/-- Vertex construction of
spiral_transforms.variable_spiral_regular_ngon_transform: first vertex at
(0, 1), heading starts at pi / 2 and turns by the law-of-cosines internal
angle at every step. -/
noncomputable def ngonVertices (side_lengths : List ℝ) : List (ℝ × ℝ) :=
  let n := side_lengths.length
  let step := fun (acc : List (ℝ × ℝ) × (ℝ × ℝ) × ℝ) (i : ℕ) =>
    let side_a := side_lengths.getD (i - 1) 0
    let side_b := side_lengths.getD i 0
    let side_c := side_lengths.getD ((i + 1) % n) 0
    let cos_angle := (side_a ^ 2 + side_b ^ 2 - side_c ^ 2) / (2 * side_a * side_b)
    let internal_angle := Real.arccos (np_clip cos_angle (-1) 1)
    let current_angle := acc.2.2 - internal_angle
    let next_vertex := (acc.2.1.1 + side_b * cos current_angle, acc.2.1.2 + side_b * sin current_angle)
    (acc.1 ++ [next_vertex], next_vertex, current_angle)
  ((List.range' 1 (n - 1)).foldl step ([((0 : ℝ), (1 : ℝ))], ((0 : ℝ), (1 : ℝ)), π / 2)).1

/-- spiral_transforms.variable_spiral_regular_ngon_transform.  As with the
triangle variant, the source overwrites zero buffers per theta sample and
never reads the incoming coordinates. -/
noncomputable def variable_spiral_regular_ngon_transform (x y theta : List ℝ)
    (start_rate end_rate : ℝ) (side_lengths : List ℝ) : List ℝ × List ℝ :=
  let n := side_lengths.length
  let theta_max := theta.getLastD 0
  let delta_rate := end_rate - start_rate
  let r := fun ti => start_rate * ti + delta_rate / (2 * theta_max) * ti ^ 2
  let vertices := ngonVertices side_lengths
  let boundary := fun ti =>
    let norm_angle := pymod ti (2 * π)
    let segment_angle := 2 * π / (n : ℝ)
    let side_index := (⌊norm_angle / segment_angle⌋).toNat
    let t := pymod norm_angle segment_angle / segment_angle
    let vertex_start := vertices.getD side_index (0, 0)
    let vertex_end := vertices.getD ((side_index + 1) % n) (0, 0)
    ((1 - t) * vertex_start.1 + t * vertex_end.1, (1 - t) * vertex_start.2 + t * vertex_end.2)
  (theta.map (fun ti => (boundary ti).1 * r ti), theta.map (fun ti => (boundary ti).2 * r ti))

/-- spiral_transforms.variable_spiral_ngon_transform: its source body is
identical to variable_spiral_regular_ngon_transform apart from printing a
console warning that the side-length geometry is unreliable. -/
noncomputable def variable_spiral_ngon_transform (x y theta : List ℝ)
    (start_rate end_rate : ℝ) (side_lengths : List ℝ) : List ℝ × List ℝ :=
  variable_spiral_regular_ngon_transform x y theta start_rate end_rate side_lengths

/-- spirograph_transforms.spirograph_transform: circle rolling trochoid;
mode must be hypotrochoid or epitrochoid, anything else raises ValueError. -/
noncomputable def spirograph_transform (x y theta : List ℝ) (R r d : ℝ) (mode : String) :
    Except String (List ℝ × List ℝ) :=
  if mode = "hypotrochoid" then
    .ok (List.zipWith (fun xi ti => xi + (R - r) * cos ti + d * cos ((R - r) / r * ti)) x theta,
         List.zipWith (fun yi ti => yi + (R - r) * sin ti - d * sin ((R - r) / r * ti)) y theta)
  else if mode = "epitrochoid" then
    .ok (List.zipWith (fun xi ti => xi + (R + r) * cos ti - d * cos ((R + r) / r * ti)) x theta,
         List.zipWith (fun yi ti => yi + (R + r) * sin ti - d * sin ((R + r) / r * ti)) y theta)
  else .error (r"Invalid mode. Use hypotrochoid or epitrochoid.")

/-- spirograph_transforms.elliptical_spirograph_transform: as the circular
trochoid but with the tracing distance scaled by a / r and b / r. -/
noncomputable def elliptical_spirograph_transform (x y theta : List ℝ) (R r d a b : ℝ)
    (mode : String) : Except String (List ℝ × List ℝ) :=
  if mode = "hypotrochoid" then
    .ok (List.zipWith (fun xi ti => xi + (R - r) * cos ti + d * (a / r) * cos ((R - r) / r * ti)) x theta,
         List.zipWith (fun yi ti => yi + (R - r) * sin ti - d * (b / r) * sin ((R - r) / r * ti)) y theta)
  else if mode = "epitrochoid" then
    .ok (List.zipWith (fun xi ti => xi + (R + r) * cos ti - d * (a / r) * cos ((R + r) / r * ti)) x theta,
         List.zipWith (fun yi ti => yi + (R + r) * sin ti - d * (b / r) * sin ((R + r) / r * ti)) y theta)
  else .error (r"Invalid mode. Use hypotrochoid or epitrochoid.")

/-- spirograph_transforms.polygon_spirograph_transform: the rolling radius
is derived from R and the side count before the mode dispatch; mode must be
hypocyclogon or epicyclogon, anything else raises ValueError. -/
noncomputable def polygon_spirograph_transform (x y theta : List ℝ) (R n d : ℝ)
    (mode : String) : Except String (List ℝ × List ℝ) :=
  let r := if mode = "hypocyclogon" then R * (sin (π / n) / (1 + sin (π / n)))
           else R * (sin (π / n) / (1 - sin (π / n)))
  if mode = "hypocyclogon" then
    .ok (List.zipWith (fun xi ti =>
           let rotations := (R - r) / r
           let psi := rotations * ti
           let phi := ti * (R - r) / r - psi * (2 * π / n)
           xi + (R - r) * cos ti + d * cos phi) x theta,
         List.zipWith (fun yi ti =>
           let rotations := (R - r) / r
           let psi := rotations * ti
           let phi := ti * (R - r) / r - psi * (2 * π / n)
           yi + (R - r) * sin ti + d * sin phi) y theta)
  else if mode = "epicyclogon" then
    .ok (List.zipWith (fun xi ti =>
           let rotations := (R + r) / r
           let psi := rotations * ti
           let phi := ti * (R + r) / r - psi * (2 * π / n)
           xi + (R + r) * cos ti + d * cos phi) x theta,
         List.zipWith (fun yi ti =>
           let rotations := (R + r) / r
           let psi := rotations * ti
           let phi := ti * (R + r) / r - psi * (2 * π / n)
           yi + (R + r) * sin ti + d * sin phi) y theta)
  else .error (r"Invalid mode. Use hypocyclogon or epicyclogon.")

/-- spirograph_transforms.spirograph_rectangle_transform: a gear rolls along
a rectangle perimeter; the active side is selected by thresholds on the
distance travelled modulo the perimeter. -/
noncomputable def spirograph_rectangle_transform (x y theta : List ℝ)
    (rect_width rect_height gear_radius tracing_point_dist : ℝ) : List ℝ × List ℝ :=
  let perimeter := 2 * (rect_width + rect_height)
  let gearCenter := fun ti =>
    let distance_along_perimeter := pymod (gear_radius * ti) perimeter
    if distance_along_perimeter < rect_width then
      (-rect_width / 2 + distance_along_perimeter, rect_height / 2)
    else if distance_along_perimeter < rect_width + rect_height then
      (rect_width / 2, rect_height / 2 - (distance_along_perimeter - rect_width))
    else if distance_along_perimeter < 2 * rect_width + rect_height then
      (rect_width / 2 - (distance_along_perimeter - (rect_width + rect_height)), -rect_height / 2)
    else
      (-rect_width / 2, -rect_height / 2 + (distance_along_perimeter - (2 * rect_width + rect_height)))
  let gear_rotation := fun ti => ti * (rect_width + rect_height) / gear_radius
  (List.zipWith (fun xi ti =>
      xi + (gearCenter ti).1 + tracing_point_dist * cos (gear_rotation ti)) x theta,
   List.zipWith (fun yi ti =>
      yi + (gearCenter ti).2 + tracing_point_dist * sin (gear_rotation ti)) y theta)

/-- Theta generation inside main.draw_pattern: np.linspace(0, 2 * np.pi *
rotations, 50000).  The source performs no validation of the rotation count
and this line cannot raise. -/
noncomputable def draw_pattern_theta (rotations : ℝ) : List ℝ :=
  linspace 0 (2 * π * rotations) 50000

/-- Read the pair of output samples at index i from a successful transform
call; a failed call yields the junk value (0, 0). -/
def okGetD (e : Except String (List ℝ × List ℝ)) (i : ℕ) : ℝ × ℝ :=
  match e with
  | .ok p => (p.1.getD i 0, p.2.getD i 0)
  | .error _ => (0, 0)

/-- Statement shape for the length-preservation and index-alignment
contract of a transform: on equal-length inputs both outputs have the
length of theta, and the sample at index i of either output is already
determined by the samples at index i (and the final theta element) alone,
witnessed by comparing two runs that agree there. -/
def LenAligned (T : List ℝ → List ℝ → List ℝ → List ℝ × List ℝ)
    (x y theta x' y' theta' : List ℝ) (i : ℕ) : Prop :=
  (T x y theta).1.length = theta.length
  ∧ (T x y theta).2.length = theta.length
  ∧ (T x y theta).1[i]? = (T x' y' theta').1[i]?
  ∧ (T x y theta).2[i]? = (T x' y' theta').2[i]?

/-- The same contract for the transforms that can raise: the call succeeds
and the returned pair satisfies length preservation and index alignment. -/
def ExceptLenAligned (T : List ℝ → List ℝ → List ℝ → Except String (List ℝ × List ℝ))
    (x y theta x' y' theta' : List ℝ) (i : ℕ) : Prop :=
  (T x y theta).map (fun p => (p.1.length, p.2.length)) = .ok (theta.length, theta.length)
  ∧ (T x y theta).map (fun p => (p.1[i]?, p.2[i]?)) = (T x' y' theta').map (fun p => (p.1[i]?, p.2[i]?))

/-!
Helper lemmas: indexing and length facts for the elementwise list
combinators used by the embedding.
-/

theorem zipWith3_length {α β γ δ : Type*} (f : α → β → γ → δ) (as : List α) (bs : List β) (cs : List γ) :
    (zipWith3 f as bs cs).length = min as.length (min bs.length cs.length) := by
  induction as generalizing bs cs with
  | nil => simp [zipWith3]
  | cons a as ih =>
    cases bs with
    | nil => simp [zipWith3]
    | cons b bs =>
      cases cs with
      | nil => simp [zipWith3]
      | cons c cs =>
        simp only [zipWith3, List.length_cons, ih]
        omega

theorem zipWith3_getElem? {α β γ δ : Type*} (f : α → β → γ → δ) (as : List α) (bs : List β) (cs : List γ) (i : ℕ) :
    (zipWith3 f as bs cs)[i]? = as[i]?.bind fun a => bs[i]?.bind fun b => cs[i]?.map fun c => f a b c := by
  induction as generalizing bs cs i with
  | nil => simp [zipWith3]
  | cons a as ih =>
    cases bs with
    | nil =>
      cases h : (a :: as)[i]? <;> simp [zipWith3, h]
    | cons b bs =>
      cases cs with
      | nil =>
        cases h : (a :: as)[i]? with
        | none => simp [zipWith3, h]
        | some v =>
          cases h2 : (b :: bs)[i]? <;> simp [zipWith3, h, h2]
      | cons c cs =>
        cases i with
        | zero => simp [zipWith3]
        | succ n => simpa [zipWith3] using ih bs cs n

theorem zipWith_getElem?_eq {α β γ : Type*} (f : α → β → γ) (as : List α) (bs : List β) (i : ℕ) :
    (List.zipWith f as bs)[i]? = as[i]?.bind fun a => bs[i]?.map fun b => f a b := by
  induction as generalizing bs i with
  | nil => simp
  | cons a as ih =>
    cases bs with
    | nil =>
      cases h : (a :: as)[i]? <;> simp [h]
    | cons b bs =>
      cases i with
      | zero => simp
      | succ n => simpa using ih bs n

theorem getD_zipWith (f : ℝ → ℝ → ℝ) (as bs : List ℝ) (i : ℕ)
    (ha : i < as.length) (hb : i < bs.length) :
    (List.zipWith f as bs).getD i 0 = f (as.getD i 0) (bs.getD i 0) := by
  simp [List.getD_eq_getElem?_getD, zipWith_getElem?_eq,
    List.getElem?_eq_getElem ha, List.getElem?_eq_getElem hb]

theorem getD_zipWith3 (f : ℝ → ℝ → ℝ → ℝ) (as bs cs : List ℝ) (i : ℕ)
    (ha : i < as.length) (hb : i < bs.length) (hc : i < cs.length) :
    (zipWith3 f as bs cs).getD i 0 = f (as.getD i 0) (bs.getD i 0) (cs.getD i 0) := by
  simp [List.getD_eq_getElem?_getD, zipWith3_getElem?,
    List.getElem?_eq_getElem ha, List.getElem?_eq_getElem hb, List.getElem?_eq_getElem hc]

theorem getD_map (f : ℝ → ℝ) (l : List ℝ) (i : ℕ) (h : i < l.length) :
    (l.map f).getD i 0 = f (l.getD i 0) := by
  simp [List.getD_eq_getElem?_getD, List.getElem?_eq_getElem h]

theorem getLastD_eq_getD_pred (l : List ℝ) : l.getLastD 0 = l.getD (l.length - 1) 0 := by
  rw [List.getLastD_eq_getLast?, List.getLast?_eq_getElem?, List.getD_eq_getElem?_getD]

theorem zipWith_left_of (f : ℝ → ℝ → ℝ) (hf : ∀ a b, f a b = a) (x y : List ℝ)
    (h : x.length = y.length) : List.zipWith f x y = x := by
  induction x generalizing y with
  | nil => simp
  | cons a as ih =>
    cases y with
    | nil => simp at h
    | cons b bs =>
      simp only [List.length_cons, Nat.add_right_cancel_iff] at h
      simp [hf, ih bs h]

theorem zipWith_right_of (f : ℝ → ℝ → ℝ) (hf : ∀ a b, f a b = b) (x y : List ℝ)
    (h : x.length = y.length) : List.zipWith f x y = y := by
  induction x generalizing y with
  | nil => cases y with
    | nil => simp
    | cons b bs => simp at h
  | cons a as ih =>
    cases y with
    | nil => simp at h
    | cons b bs =>
      simp only [List.length_cons, Nat.add_right_cancel_iff] at h
      simp [hf, ih bs h]

theorem linspace_length (s e : ℝ) (n : ℕ) : (linspace s e n).length = n := by
  rw [linspace, List.length_map, List.length_range]

theorem linspace_getD (s e : ℝ) (n i : ℕ) (h : i < n) :
    (linspace s e n).getD i 0 = s + (i : ℝ) * ((e - s) / ((n : ℝ) - 1)) := by
  rw [linspace, List.getD_eq_getElem?_getD, List.getElem?_map, List.getElem?_range h]
  rfl

theorem linspace_getLastD (s e : ℝ) (n : ℕ) (h : n ≠ 0) :
    (linspace s e n).getLastD 0 = s + ((n : ℝ) - 1) * ((e - s) / ((n : ℝ) - 1)) := by
  have h1 : 1 ≤ n := Nat.one_le_iff_ne_zero.mpr h
  rw [getLastD_eq_getD_pred, linspace_length, linspace_getD s e n (n - 1) (by omega)]
  congr 2
  push_cast [Nat.cast_sub h1]
  ring

/-!
Shared facts about the generated angle sequence and about rotations.
-/

theorem draw_theta_length (rotations : ℝ) : (draw_pattern_theta rotations).length = 50000 := by
  rw [draw_pattern_theta, linspace_length]

theorem draw_theta_first (rotations : ℝ) : (draw_pattern_theta rotations).getD 0 0 = 0 := by
  rw [draw_pattern_theta, linspace_getD 0 (2 * π * rotations) 50000 0 (by norm_num)]
  norm_num

theorem draw_theta_last (rotations : ℝ) :
    (draw_pattern_theta rotations).getLastD 0 = 2 * π * rotations := by
  rw [draw_pattern_theta, linspace_getLastD 0 (2 * π * rotations) 50000 (by norm_num)]
  push_cast
  field_simp

theorem draw_theta_getD (rotations : ℝ) (i : ℕ) (h : i < 50000) :
    (draw_pattern_theta rotations).getD i 0 = (i : ℝ) * (2 * π * rotations / 49999) := by
  rw [draw_pattern_theta, linspace_getD 0 (2 * π * rotations) 50000 i h]
  push_cast
  ring_nf

theorem deg2rad_360 : deg2rad 360 = 2 * π := by
  rw [deg2rad]; ring

theorem cos_ten_pi : cos (10 * π) = 1 := by
  rw [show (10 : ℝ) * π = (5 : ℕ) * (2 * π) by push_cast; ring]
  exact Real.cos_nat_mul_two_pi 5

theorem sin_ten_pi : sin (10 * π) = 0 := by
  rw [show (10 : ℝ) * π = (10 : ℕ) * π by push_cast; ring]
  exact Real.sin_nat_mul_pi 10

theorem cos_forty_pi : cos (40 * π) = 1 := by
  rw [show (40 : ℝ) * π = (20 : ℕ) * (2 * π) by push_cast; ring]
  exact Real.cos_nat_mul_two_pi 20

theorem sin_forty_pi : sin (40 * π) = 0 := by
  rw [show (40 : ℝ) * π = (40 : ℕ) * π by push_cast; ring]
  exact Real.sin_nat_mul_pi 40

theorem rotation_sq_sum (xi yi phi : ℝ) :
    (xi * cos phi - yi * sin phi) ^ 2 + (xi * sin phi + yi * cos phi) ^ 2 = xi ^ 2 + yi ^ 2 := by
  have h := Real.sin_sq_add_cos_sq phi
  linear_combination (xi ^ 2 + yi ^ 2) * h

/-!
Claim theorems.
-/

/-- Claim C1 (amended): the angle-sequence generation in draw_pattern never
fails; for every rotation count, non-positive ones included, it returns a
50000-sample sequence starting at 0 and ending at 2 * pi * rotations. -/
theorem c1_theta_generation_total (rotations : ℝ) :
    (draw_pattern_theta rotations).length = 50000
    ∧ (draw_pattern_theta rotations).getD 0 0 = 0
    ∧ (draw_pattern_theta rotations).getLastD 0 = 2 * π * rotations :=
  ⟨draw_theta_length rotations, draw_theta_first rotations, draw_theta_last rotations⟩

/-- Claim C1 counterexample: at rotations = 0, where the claim requires an
invalid-input error instead of a theta sequence, the source produces a full
50000-sample theta sequence (all samples 0). -/
theorem c1_rotations_zero_produces_sequence :
    (draw_pattern_theta 0).length = 50000 ∧ draw_pattern_theta 0 = List.replicate 50000 0 := by
  refine ⟨draw_theta_length 0, ?_⟩
  rw [List.eq_replicate_iff]
  refine ⟨draw_theta_length 0, ?_⟩
  intro b hb
  rw [draw_pattern_theta, linspace] at hb
  simp only [List.mem_map, List.mem_range] at hb
  obtain ⟨j, hj, hjb⟩ := hb
  rw [← hjb]
  norm_num

/-- Claim C6: for rotations > 0 the generated theta sequence has exactly
50000 samples, starts at 0, ends at 2 * pi * rotations exactly, is evenly
spaced with step 2 * pi * rotations / 49999, and is strictly increasing. -/
theorem c6_theta_sequence_shape (rotations : ℝ) (h : 0 < rotations) :
    (draw_pattern_theta rotations).length = 50000
    ∧ (draw_pattern_theta rotations).getD 0 0 = 0
    ∧ (draw_pattern_theta rotations).getLastD 0 = 2 * π * rotations
    ∧ (∀ i : ℕ, i + 1 < 50000 →
        (draw_pattern_theta rotations).getD (i + 1) 0 - (draw_pattern_theta rotations).getD i 0
          = 2 * π * rotations / 49999)
    ∧ (∀ i : ℕ, i + 1 < 50000 →
        (draw_pattern_theta rotations).getD i 0 < (draw_pattern_theta rotations).getD (i + 1) 0) := by
  have hstep : ∀ i : ℕ, i + 1 < 50000 →
      (draw_pattern_theta rotations).getD (i + 1) 0 - (draw_pattern_theta rotations).getD i 0
        = 2 * π * rotations / 49999 := by
    intro i hi
    rw [draw_theta_getD rotations (i + 1) hi, draw_theta_getD rotations i (by omega)]
    push_cast
    ring
  have hpos : 0 < 2 * π * rotations / 49999 := by
    have h2 : (0 : ℝ) < 2 * π := by positivity
    exact div_pos (mul_pos h2 h) (by norm_num)
  refine ⟨draw_theta_length rotations, draw_theta_first rotations, draw_theta_last rotations,
    hstep, ?_⟩
  intro i hi
  have hd := hstep i hi
  linarith

/-- Witness for claim C6 at rotations = 1. -/
theorem c6_theta_sequence_shape_witness :
    (draw_pattern_theta 1).length = 50000
    ∧ (draw_pattern_theta 1).getD 0 0 < (draw_pattern_theta 1).getD 1 0 := by
  have h := c6_theta_sequence_shape 1 (by norm_num)
  exact ⟨h.1, h.2.2.2.2 0 (by norm_num)⟩

/-- Claim C8: svg_path_transform ignores the incoming coordinates; two
calls sharing theta, path, scale and offsets but with different x and y
return identical outputs. -/
theorem c8_svg_path_ignores_input_coordinates (x1 y1 x2 y2 theta : List ℝ)
    (svg_path : SvgPath) (scale offset_x offset_y : ℝ) :
    svg_path_transform x1 y1 theta svg_path scale offset_x offset_y
      = svg_path_transform x2 y2 theta svg_path scale offset_x offset_y := rfl

/-- Claim C5: translate_scale_rotate_transform with the default placement
parameters (0, 0, 1, 1, 0) returns x and y exactly unchanged. -/
theorem c5_placement_identity (x y theta : List ℝ) (h : x.length = y.length) :
    translate_scale_rotate_transform x y theta 0 0 1 1 0 = (x, y) := by
  have hc : cos (deg2rad 0) = 1 := by rw [deg2rad]; norm_num
  have hs : sin (deg2rad 0) = 0 := by rw [deg2rad]; norm_num
  simp only [translate_scale_rotate_transform, hc, hs, mul_one, mul_zero, sub_zero,
    add_zero, zero_add]
  rw [zipWith_left_of (fun xi yi => xi) (fun a b => rfl) x y h,
    zipWith_right_of (fun xi yi => yi) (fun a b => rfl) x y h]

/-- Witness for claim C5. -/
theorem c5_placement_identity_witness :
    translate_scale_rotate_transform [1, 2] [3, 4] [0, 0] 0 0 1 1 0 = ([1, 2], [3, 4]) :=
  c5_placement_identity [1, 2] [3, 4] [0, 0] rfl

/-- Claim C4: per transform, a mode string outside that transform's own
recognized pair yields an invalid-parameter error and no output, also when
it is a mode recognized by one of the other transforms; no default mode is
substituted. -/
theorem c4_invalid_mode_errors (x y theta : List ℝ) (R r d a b n : ℝ) (mode : String) :
    (mode ≠ "hypotrochoid" → mode ≠ "epitrochoid" →
      spirograph_transform x y theta R r d mode
          = .error (r"Invalid mode. Use hypotrochoid or epitrochoid.")
      ∧ elliptical_spirograph_transform x y theta R r d a b mode
          = .error (r"Invalid mode. Use hypotrochoid or epitrochoid."))
    ∧ (mode ≠ "hypocyclogon" → mode ≠ "epicyclogon" →
      polygon_spirograph_transform x y theta R n d mode
          = .error (r"Invalid mode. Use hypocyclogon or epicyclogon.")) := by
  refine ⟨fun h1 h2 => ⟨?_, ?_⟩, fun h3 h4 => ?_⟩
  · simp [spirograph_transform, h1, h2]
  · simp [elliptical_spirograph_transform, h1, h2]
  · simp [polygon_spirograph_transform, h3, h4]

/-- Witness for claim C4, exercising the cross-family mode strings: the
circle and ellipse trochoids reject hypocyclogon, and the polygon variant
rejects hypotrochoid. -/
theorem c4_invalid_mode_errors_witness :
    spirograph_transform [] [] [] 1 1 1 (r"hypocyclogon")
        = .error (r"Invalid mode. Use hypotrochoid or epitrochoid.")
    ∧ elliptical_spirograph_transform [] [] [] 1 1 1 1 1 (r"hypocyclogon")
        = .error (r"Invalid mode. Use hypotrochoid or epitrochoid.")
    ∧ polygon_spirograph_transform [] [] [] 1 4 1 (r"hypotrochoid")
        = .error (r"Invalid mode. Use hypocyclogon or epicyclogon.") := by
  refine ⟨?_, ?_, ?_⟩
  · exact ((c4_invalid_mode_errors [] [] [] 1 1 1 1 1 4 (r"hypocyclogon")).1
      (by decide) (by decide)).1
  · exact ((c4_invalid_mode_errors [] [] [] 1 1 1 1 1 4 (r"hypocyclogon")).1
      (by decide) (by decide)).2
  · exact (c4_invalid_mode_errors [] [] [] 1 1 1 1 1 4 (r"hypotrochoid")).2
      (by decide) (by decide)

/-- Claim C9: mystery_lines computes r from spiral_rate and frequency and
adds the same increment r * sin theta to both coordinates, so at every
index the x-increment equals the y-increment. -/
theorem c9_mystery_lines_equal_increments (x y theta : List ℝ) (spiral_rate frequency : ℝ)
    (i : ℕ) (hx : x.length = theta.length) (hy : y.length = theta.length)
    (hi : i < theta.length) :
    (mystery_lines x y theta spiral_rate frequency).1.getD i 0
      = x.getD i 0
        + (spiral_rate + spiral_rate * sin (frequency * theta.getD i 0)) * sin (theta.getD i 0)
    ∧ (mystery_lines x y theta spiral_rate frequency).2.getD i 0
      = y.getD i 0
        + (spiral_rate + spiral_rate * sin (frequency * theta.getD i 0)) * sin (theta.getD i 0)
    ∧ (mystery_lines x y theta spiral_rate frequency).1.getD i 0 - x.getD i 0
      = (mystery_lines x y theta spiral_rate frequency).2.getD i 0 - y.getD i 0 := by
  have e1 : (mystery_lines x y theta spiral_rate frequency).1.getD i 0
      = x.getD i 0
        + (spiral_rate + spiral_rate * sin (frequency * theta.getD i 0)) * sin (theta.getD i 0) := by
    simp only [mystery_lines]
    rw [getD_zipWith _ x theta i (by omega) hi]
  have e2 : (mystery_lines x y theta spiral_rate frequency).2.getD i 0
      = y.getD i 0
        + (spiral_rate + spiral_rate * sin (frequency * theta.getD i 0)) * sin (theta.getD i 0) := by
    simp only [mystery_lines]
    rw [getD_zipWith _ y theta i (by omega) hi]
  refine ⟨e1, e2, ?_⟩
  rw [e1, e2]
  ring

/-- Witness for claim C9. -/
theorem c9_mystery_lines_equal_increments_witness :
    (mystery_lines [1] [2] [0] 3 5).1.getD 0 0
      = ([(1 : ℝ)].getD 0 0)
        + (3 + 3 * sin (5 * ([(0 : ℝ)].getD 0 0))) * sin ([(0 : ℝ)].getD 0 0)
    ∧ (mystery_lines [1] [2] [0] 3 5).2.getD 0 0
      = ([(2 : ℝ)].getD 0 0)
        + (3 + 3 * sin (5 * ([(0 : ℝ)].getD 0 0))) * sin ([(0 : ℝ)].getD 0 0)
    ∧ (mystery_lines [1] [2] [0] 3 5).1.getD 0 0 - [(1 : ℝ)].getD 0 0
      = (mystery_lines [1] [2] [0] 3 5).2.getD 0 0 - [(2 : ℝ)].getD 0 0 :=
  c9_mystery_lines_equal_increments [1] [2] [0] 3 5 0 rfl rfl (by norm_num)

/-- Claim C2 counterexample: paper_rotation with degrees = 360 does not
return the unrotated input across the sweep; on x = [1, 1, 1],
y = [0, 0, 0], theta = [0, pi, 2 pi] the middle x output sample is -1 while
the corresponding input sample is 1. -/
theorem c2_full_rotation_not_identity_midpoint :
    (paper_rotation [1, 1, 1] [0, 0, 0] [0, π, 2 * π] 360).1.getD 1 0 = -1
    ∧ ([(1 : ℝ), 1, 1].getD 1 0 = 1) ∧ ((-1 : ℝ) ≠ 1) := by
  refine ⟨?_, rfl, by norm_num⟩
  have hmax : ([0, π, 2 * π] : List ℝ).getLastD 0 = 2 * π := rfl
  simp only [paper_rotation, hmax, deg2rad_360]
  rw [getD_zipWith3 _ _ _ _ 1 (by simp) (by simp) (by simp)]
  have h1 : ([1, 1, 1] : List ℝ).getD 1 0 = 1 := rfl
  have h2 : ([0, 0, 0] : List ℝ).getD 1 0 = 0 := rfl
  have h3 : ([0, π, 2 * π] : List ℝ).getD 1 0 = π := rfl
  rw [h1, h2, h3]
  have hphi : π / (2 * π) * (2 * π) = π := by
    field_simp
  norm_num [hphi, Real.cos_pi, Real.sin_pi]

/-- Claim C2 (amended): paper_rotation with degrees = 360 rotates sample i
by phi i = (theta i / theta max) * 2 pi, so only the first and last samples
(phi = 0 and phi = 2 pi) are guaranteed to equal the unrotated input;
intermediate samples are rotated by intermediate angles. -/
theorem c2_full_rotation_fixes_endpoints (x y theta : List ℝ)
    (hx : x.length = theta.length) (hy : y.length = theta.length)
    (hne : theta ≠ []) (h0 : theta.getD 0 0 = 0) (hT : theta.getLastD 0 ≠ 0) :
    (paper_rotation x y theta 360).1.getD 0 0 = x.getD 0 0
    ∧ (paper_rotation x y theta 360).2.getD 0 0 = y.getD 0 0
    ∧ (paper_rotation x y theta 360).1.getD (theta.length - 1) 0 = x.getD (theta.length - 1) 0
    ∧ (paper_rotation x y theta 360).2.getD (theta.length - 1) 0 = y.getD (theta.length - 1) 0 := by
  have hlen : 0 < theta.length := List.length_pos.mpr hne
  have hLlt : theta.length - 1 < theta.length := by omega
  have hlast : theta.getD (theta.length - 1) 0 = theta.getLastD 0 :=
    (getLastD_eq_getD_pred theta).symm
  have hphi0 : theta.getD 0 0 / theta.getLastD 0 * deg2rad 360 = 0 := by
    rw [h0, zero_div, zero_mul]
  have hphiL : theta.getD (theta.length - 1) 0 / theta.getLastD 0 * deg2rad 360 = 2 * π := by
    rw [hlast, div_self hT, one_mul, deg2rad_360]
  refine ⟨?_, ?_, ?_, ?_⟩ <;>
    simp only [paper_rotation] <;>
    [rw [getD_zipWith3 _ x y theta 0 (by omega) (by omega) (by omega)];
     rw [getD_zipWith3 _ x y theta 0 (by omega) (by omega) (by omega)];
     rw [getD_zipWith3 _ x y theta (theta.length - 1) (by omega) (by omega) hLlt];
     rw [getD_zipWith3 _ x y theta (theta.length - 1) (by omega) (by omega) hLlt]] <;>
    simp only [hphi0, hphiL, Real.cos_zero, Real.sin_zero, Real.cos_two_pi, Real.sin_two_pi] <;>
    ring

/-- Witness for claim C2 (amended) on x = [1, 2], y = [3, 4],
theta = [0, pi]. -/
theorem c2_full_rotation_fixes_endpoints_witness :
    (paper_rotation [1, 2] [3, 4] [0, π] 360).1.getD 0 0 = [(1 : ℝ), 2].getD 0 0
    ∧ (paper_rotation [1, 2] [3, 4] [0, π] 360).2.getD 0 0 = [(3 : ℝ), 4].getD 0 0
    ∧ (paper_rotation [1, 2] [3, 4] [0, π] 360).1.getD (([0, π] : List ℝ).length - 1) 0
        = [(1 : ℝ), 2].getD (([0, π] : List ℝ).length - 1) 0
    ∧ (paper_rotation [1, 2] [3, 4] [0, π] 360).2.getD (([0, π] : List ℝ).length - 1) 0
        = [(3 : ℝ), 4].getD (([0, π] : List ℝ).length - 1) 0 :=
  c2_full_rotation_fixes_endpoints [1, 2] [3, 4] [0, π] rfl rfl (by simp) rfl
    (by simpa using Real.pi_ne_zero)

/-- Claim C7: hypotrochoid closure with R = 5, r = 1, d = 2 over a sweep
ending at 2 pi R / gcd (R, r) = 10 pi: when the inputs agree at the first
and last index, the call succeeds and the first and last output points
coincide. -/
theorem c7_hypotrochoid_closure (x y theta : List ℝ)
    (hx : x.length = theta.length) (hy : y.length = theta.length) (hne : theta ≠ [])
    (h0 : theta.getD 0 0 = 0)
    (hL : theta.getD (theta.length - 1) 0 = 10 * π)
    (hx0 : x.getD 0 0 = x.getD (theta.length - 1) 0)
    (hy0 : y.getD 0 0 = y.getD (theta.length - 1) 0) :
    (spirograph_transform x y theta 5 1 2 (r"hypotrochoid")).isOk = true
    ∧ okGetD (spirograph_transform x y theta 5 1 2 (r"hypotrochoid")) 0
      = okGetD (spirograph_transform x y theta 5 1 2 (r"hypotrochoid")) (theta.length - 1) := by
  have hlen : 0 < theta.length := List.length_pos.mpr hne
  have hLlt : theta.length - 1 < theta.length := by omega
  have hok : spirograph_transform x y theta 5 1 2 (r"hypotrochoid")
      = Except.ok
        (List.zipWith (fun xi ti => xi + (5 - 1) * cos ti + 2 * cos ((5 - 1) / 1 * ti)) x theta,
         List.zipWith (fun yi ti => yi + (5 - 1) * sin ti - 2 * sin ((5 - 1) / 1 * ti)) y theta) := by
    rw [spirograph_transform, if_pos rfl]
  rw [hok]
  refine ⟨rfl, ?_⟩
  simp only [okGetD]
  have a0 : ((5 : ℝ) - 1) / 1 * 0 = 0 := by ring
  have aL : ((5 : ℝ) - 1) / 1 * (10 * π) = 40 * π := by ring
  have ex : (List.zipWith (fun xi ti => xi + (5 - 1) * cos ti + 2 * cos ((5 - 1) / 1 * ti)) x theta).getD 0 0
      = (List.zipWith (fun xi ti => xi + (5 - 1) * cos ti + 2 * cos ((5 - 1) / 1 * ti)) x theta).getD (theta.length - 1) 0 := by
    rw [getD_zipWith _ x theta 0 (by omega) (by omega),
      getD_zipWith _ x theta (theta.length - 1) (by omega) hLlt]
    simp only [h0, hL, hx0, a0, aL, cos_ten_pi, cos_forty_pi, Real.cos_zero]
  have ey : (List.zipWith (fun yi ti => yi + (5 - 1) * sin ti - 2 * sin ((5 - 1) / 1 * ti)) y theta).getD 0 0
      = (List.zipWith (fun yi ti => yi + (5 - 1) * sin ti - 2 * sin ((5 - 1) / 1 * ti)) y theta).getD (theta.length - 1) 0 := by
    rw [getD_zipWith _ y theta 0 (by omega) (by omega),
      getD_zipWith _ y theta (theta.length - 1) (by omega) hLlt]
    simp only [h0, hL, hy0, a0, aL, sin_ten_pi, sin_forty_pi, Real.sin_zero]
  rw [ex, ey]

/-- Witness for claim C7 on x = y = [0, 0], theta = [0, 10 pi]. -/
theorem c7_hypotrochoid_closure_witness :
    (spirograph_transform [0, 0] [0, 0] [0, 10 * π] 5 1 2 (r"hypotrochoid")).isOk = true
    ∧ okGetD (spirograph_transform [0, 0] [0, 0] [0, 10 * π] 5 1 2 (r"hypotrochoid")) 0
      = okGetD (spirograph_transform [0, 0] [0, 0] [0, 10 * π] 5 1 2 (r"hypotrochoid")) 1 :=
  c7_hypotrochoid_closure [0, 0] [0, 0] [0, 10 * π] rfl rfl (by simp) rfl rfl rfl rfl

/-- Claim C10: paper_rotation and paper_rotation_transform_non_linear with
each of the three recognized rate-function names preserve the distance of
every sample from the origin. -/
theorem c10_paper_rotation_preserves_radius (x y theta : List ℝ) (degrees : ℝ)
    (i : ℕ) (hx : x.length = theta.length) (hy : y.length = theta.length)
    (hi : i < theta.length) (hT : theta.getLastD 0 ≠ 0) :
    ((paper_rotation x y theta degrees).1.getD i 0) ^ 2
        + ((paper_rotation x y theta degrees).2.getD i 0) ^ 2
      = (x.getD i 0) ^ 2 + (y.getD i 0) ^ 2
    ∧ (paper_rotation_transform_non_linear x y theta degrees (.name (r"linear"))).isOk = true
    ∧ ((okGetD (paper_rotation_transform_non_linear x y theta degrees (.name (r"linear"))) i).1 ^ 2
        + (okGetD (paper_rotation_transform_non_linear x y theta degrees (.name (r"linear"))) i).2 ^ 2
      = (x.getD i 0) ^ 2 + (y.getD i 0) ^ 2)
    ∧ (paper_rotation_transform_non_linear x y theta degrees (.name (r"quadratic"))).isOk = true
    ∧ ((okGetD (paper_rotation_transform_non_linear x y theta degrees (.name (r"quadratic"))) i).1 ^ 2
        + (okGetD (paper_rotation_transform_non_linear x y theta degrees (.name (r"quadratic"))) i).2 ^ 2
      = (x.getD i 0) ^ 2 + (y.getD i 0) ^ 2)
    ∧ (paper_rotation_transform_non_linear x y theta degrees (.name (r"sinusoidal"))).isOk = true
    ∧ ((okGetD (paper_rotation_transform_non_linear x y theta degrees (.name (r"sinusoidal"))) i).1 ^ 2
        + (okGetD (paper_rotation_transform_non_linear x y theta degrees (.name (r"sinusoidal"))) i).2 ^ 2
      = (x.getD i 0) ^ 2 + (y.getD i 0) ^ 2) := by
  have hb1 : i < x.length := by omega
  have hb2 : i < y.length := by omega
  have e0 : ((paper_rotation x y theta degrees).1.getD i 0) ^ 2
      + ((paper_rotation x y theta degrees).2.getD i 0) ^ 2
      = (x.getD i 0) ^ 2 + (y.getD i 0) ^ 2 := by
    simp only [paper_rotation]
    rw [getD_zipWith3 _ x y theta i hb1 hb2 hi, getD_zipWith3 _ x y theta i hb1 hb2 hi]
    exact rotation_sq_sum _ _ _
  have hokL : paper_rotation_transform_non_linear x y theta degrees (.name (r"linear"))
      = Except.ok
        (zipWith3 (fun xi yi ti =>
            xi * cos (ti / theta.getLastD 0 * deg2rad degrees)
              - yi * sin (ti / theta.getLastD 0 * deg2rad degrees)) x y theta,
         zipWith3 (fun xi yi ti =>
            xi * sin (ti / theta.getLastD 0 * deg2rad degrees)
              + yi * cos (ti / theta.getLastD 0 * deg2rad degrees)) x y theta) := by
    rw [paper_rotation_transform_non_linear]
    simp
  have hokQ : paper_rotation_transform_non_linear x y theta degrees (.name (r"quadratic"))
      = Except.ok
        (zipWith3 (fun xi yi ti =>
            xi * cos ((ti / theta.getLastD 0) ^ 2 * deg2rad degrees)
              - yi * sin ((ti / theta.getLastD 0) ^ 2 * deg2rad degrees)) x y theta,
         zipWith3 (fun xi yi ti =>
            xi * sin ((ti / theta.getLastD 0) ^ 2 * deg2rad degrees)
              + yi * cos ((ti / theta.getLastD 0) ^ 2 * deg2rad degrees)) x y theta) := by
    rw [paper_rotation_transform_non_linear]
    simp
  have hokS : paper_rotation_transform_non_linear x y theta degrees (.name (r"sinusoidal"))
      = Except.ok
        (zipWith3 (fun xi yi ti =>
            xi * cos (sin (ti / theta.getLastD 0 * π / 2) * deg2rad degrees)
              - yi * sin (sin (ti / theta.getLastD 0 * π / 2) * deg2rad degrees)) x y theta,
         zipWith3 (fun xi yi ti =>
            xi * sin (sin (ti / theta.getLastD 0 * π / 2) * deg2rad degrees)
              + yi * cos (sin (ti / theta.getLastD 0 * π / 2) * deg2rad degrees)) x y theta) := by
    rw [paper_rotation_transform_non_linear]
    simp
  refine ⟨e0, ?_, ?_, ?_, ?_, ?_, ?_⟩
  · rw [hokL]; rfl
  · rw [hokL]
    simp only [okGetD]
    rw [getD_zipWith3 _ x y theta i hb1 hb2 hi, getD_zipWith3 _ x y theta i hb1 hb2 hi]
    exact rotation_sq_sum _ _ _
  · rw [hokQ]; rfl
  · rw [hokQ]
    simp only [okGetD]
    rw [getD_zipWith3 _ x y theta i hb1 hb2 hi, getD_zipWith3 _ x y theta i hb1 hb2 hi]
    exact rotation_sq_sum _ _ _
  · rw [hokS]; rfl
  · rw [hokS]
    simp only [okGetD]
    rw [getD_zipWith3 _ x y theta i hb1 hb2 hi, getD_zipWith3 _ x y theta i hb1 hb2 hi]
    exact rotation_sq_sum _ _ _

/-- Witness for claim C10 on x = [3], y = [4], theta = [1], i = 0. -/
theorem c10_paper_rotation_preserves_radius_witness :
    ((paper_rotation [3] [4] [1] 90).1.getD 0 0) ^ 2
        + ((paper_rotation [3] [4] [1] 90).2.getD 0 0) ^ 2
      = ([(3 : ℝ)].getD 0 0) ^ 2 + ([(4 : ℝ)].getD 0 0) ^ 2 :=
  (c10_paper_rotation_preserves_radius [3] [4] [1] 90 0 rfl rfl (by norm_num)
    (by norm_num)).1

/-!
Length-preservation and index-alignment lemmas, one per transform in the
library.
-/

theorem circular_motion_lenAligned (x y theta x' y' theta' : List ℝ) (radius speed : ℝ)
    (i : ℕ) (hx : x.length = theta.length) (hy : y.length = theta.length)
    (hxi : x[i]? = x'[i]?) (hyi : y[i]? = y'[i]?) (hti : theta[i]? = theta'[i]?) :
    LenAligned (fun u v t => circular_motion u v t radius speed) x y theta x' y' theta' i := by
  unfold LenAligned
  refine ⟨?_, ?_, ?_, ?_⟩
  · simp [circular_motion, hx]
  · simp [circular_motion, hy]
  · simp only [circular_motion, zipWith_getElem?_eq, hxi, hti]
  · simp only [circular_motion, zipWith_getElem?_eq, hyi, hti]

theorem translate_scale_rotate_transform_lenAligned (x y theta x' y' theta' : List ℝ)
    (x_offset y_offset scale_x scale_y rotation_angle : ℝ) (i : ℕ)
    (hx : x.length = theta.length) (hy : y.length = theta.length)
    (hxi : x[i]? = x'[i]?) (hyi : y[i]? = y'[i]?) :
    LenAligned (fun u v t =>
        translate_scale_rotate_transform u v t x_offset y_offset scale_x scale_y rotation_angle)
      x y theta x' y' theta' i := by
  unfold LenAligned
  refine ⟨?_, ?_, ?_, ?_⟩
  · simp [translate_scale_rotate_transform, hx, hy]
  · simp [translate_scale_rotate_transform, hx, hy]
  · simp only [translate_scale_rotate_transform, zipWith_getElem?_eq, hxi, hyi]
  · simp only [translate_scale_rotate_transform, zipWith_getElem?_eq, hxi, hyi]

theorem paper_rotation_lenAligned (x y theta x' y' theta' : List ℝ) (degrees : ℝ) (i : ℕ)
    (hx : x.length = theta.length) (hy : y.length = theta.length)
    (hlast : theta.getLastD 0 = theta'.getLastD 0)
    (hxi : x[i]? = x'[i]?) (hyi : y[i]? = y'[i]?) (hti : theta[i]? = theta'[i]?) :
    LenAligned (fun u v t => paper_rotation u v t degrees) x y theta x' y' theta' i := by
  unfold LenAligned
  refine ⟨?_, ?_, ?_, ?_⟩
  · simp [paper_rotation, zipWith3_length, hx, hy]
  · simp [paper_rotation, zipWith3_length, hx, hy]
  · simp only [paper_rotation, zipWith3_getElem?, hxi, hyi, hti, hlast]
  · simp only [paper_rotation, zipWith3_getElem?, hxi, hyi, hti, hlast]

theorem mystery_lines_lenAligned (x y theta x' y' theta' : List ℝ) (spiral_rate frequency : ℝ)
    (i : ℕ) (hx : x.length = theta.length) (hy : y.length = theta.length)
    (hxi : x[i]? = x'[i]?) (hyi : y[i]? = y'[i]?) (hti : theta[i]? = theta'[i]?) :
    LenAligned (fun u v t => mystery_lines u v t spiral_rate frequency) x y theta x' y' theta' i := by
  unfold LenAligned
  refine ⟨?_, ?_, ?_, ?_⟩
  · simp [mystery_lines, hx]
  · simp [mystery_lines, hy]
  · simp only [mystery_lines, zipWith_getElem?_eq, hxi, hti]
  · simp only [mystery_lines, zipWith_getElem?_eq, hyi, hti]

theorem linear_translation_transform_lenAligned (x y theta x' y' theta' : List ℝ)
    (total_distance movement_angle_degrees : ℝ) (i : ℕ)
    (hx : x.length = theta.length) (hy : y.length = theta.length)
    (hlast : theta.getLastD 0 = theta'.getLastD 0)
    (hxi : x[i]? = x'[i]?) (hyi : y[i]? = y'[i]?) (hti : theta[i]? = theta'[i]?) :
    LenAligned (fun u v t => linear_translation_transform u v t total_distance movement_angle_degrees)
      x y theta x' y' theta' i := by
  unfold LenAligned
  refine ⟨?_, ?_, ?_, ?_⟩
  · simp [linear_translation_transform, hx]
  · simp [linear_translation_transform, hy]
  · simp only [linear_translation_transform, zipWith_getElem?_eq, hxi, hti, hlast]
  · simp only [linear_translation_transform, zipWith_getElem?_eq, hyi, hti, hlast]

theorem svg_path_transform_lenAligned (x y theta x' y' theta' : List ℝ) (svg_path : SvgPath)
    (scale offset_x offset_y : ℝ) (i : ℕ)
    (hlast : theta.getLastD 0 = theta'.getLastD 0) (hti : theta[i]? = theta'[i]?) :
    LenAligned (fun u v t => svg_path_transform u v t svg_path scale offset_x offset_y)
      x y theta x' y' theta' i := by
  unfold LenAligned
  refine ⟨?_, ?_, ?_, ?_⟩
  · simp [svg_path_transform]
  · simp [svg_path_transform]
  · simp only [svg_path_transform, List.getElem?_map, hti, hlast, Option.map_map]
  · simp only [svg_path_transform, List.getElem?_map, hti, hlast, Option.map_map]

theorem spiral_transform_lenAligned (x y theta x' y' theta' : List ℝ) (spiral_rate a b : ℝ)
    (i : ℕ) (hx : x.length = theta.length) (hy : y.length = theta.length)
    (hxi : x[i]? = x'[i]?) (hyi : y[i]? = y'[i]?) (hti : theta[i]? = theta'[i]?) :
    LenAligned (fun u v t => spiral_transform u v t spiral_rate a b) x y theta x' y' theta' i := by
  unfold LenAligned
  refine ⟨?_, ?_, ?_, ?_⟩
  · simp [spiral_transform, hx]
  · simp [spiral_transform, hy]
  · simp only [spiral_transform, zipWith_getElem?_eq, hxi, hti]
  · simp only [spiral_transform, zipWith_getElem?_eq, hyi, hti]

theorem spiral_oscillator_lenAligned (x y theta x' y' theta' : List ℝ)
    (spiral_rate frequency const a b : ℝ) (i : ℕ)
    (hx : x.length = theta.length) (hy : y.length = theta.length)
    (hxi : x[i]? = x'[i]?) (hyi : y[i]? = y'[i]?) (hti : theta[i]? = theta'[i]?) :
    LenAligned (fun u v t => spiral_oscillator u v t spiral_rate frequency const a b)
      x y theta x' y' theta' i := by
  unfold LenAligned
  refine ⟨?_, ?_, ?_, ?_⟩
  · simp [spiral_oscillator, hx]
  · simp [spiral_oscillator, hy]
  · simp only [spiral_oscillator, zipWith_getElem?_eq, hxi, hti]
  · simp only [spiral_oscillator, zipWith_getElem?_eq, hyi, hti]

theorem variable_spiral_transform_lenAligned (x y theta x' y' theta' : List ℝ)
    (start_rate end_rate a b : ℝ) (i : ℕ)
    (hx : x.length = theta.length) (hy : y.length = theta.length)
    (hlast : theta.getLastD 0 = theta'.getLastD 0)
    (hxi : x[i]? = x'[i]?) (hyi : y[i]? = y'[i]?) (hti : theta[i]? = theta'[i]?) :
    LenAligned (fun u v t => variable_spiral_transform u v t start_rate end_rate a b)
      x y theta x' y' theta' i := by
  unfold LenAligned
  refine ⟨?_, ?_, ?_, ?_⟩
  · simp [variable_spiral_transform, hx]
  · simp [variable_spiral_transform, hy]
  · simp only [variable_spiral_transform, zipWith_getElem?_eq, hxi, hti, hlast]
  · simp only [variable_spiral_transform, zipWith_getElem?_eq, hyi, hti, hlast]

theorem variable_spiral_triangle_transform_lenAligned (x y theta x' y' theta' : List ℝ)
    (start_rate end_rate side1 side2 side3 : ℝ) (i : ℕ)
    (hlast : theta.getLastD 0 = theta'.getLastD 0) (hti : theta[i]? = theta'[i]?) :
    LenAligned (fun u v t =>
        variable_spiral_triangle_transform u v t start_rate end_rate side1 side2 side3)
      x y theta x' y' theta' i := by
  unfold LenAligned
  refine ⟨?_, ?_, ?_, ?_⟩
  · simp [variable_spiral_triangle_transform]
  · simp [variable_spiral_triangle_transform]
  · simp only [variable_spiral_triangle_transform, List.getElem?_map, hti, hlast]
  · simp only [variable_spiral_triangle_transform, List.getElem?_map, hti, hlast]

theorem variable_spiral_regular_ngon_transform_lenAligned (x y theta x' y' theta' : List ℝ)
    (start_rate end_rate : ℝ) (side_lengths : List ℝ) (i : ℕ)
    (hlast : theta.getLastD 0 = theta'.getLastD 0) (hti : theta[i]? = theta'[i]?) :
    LenAligned (fun u v t =>
        variable_spiral_regular_ngon_transform u v t start_rate end_rate side_lengths)
      x y theta x' y' theta' i := by
  unfold LenAligned
  refine ⟨?_, ?_, ?_, ?_⟩
  · simp [variable_spiral_regular_ngon_transform]
  · simp [variable_spiral_regular_ngon_transform]
  · simp only [variable_spiral_regular_ngon_transform, List.getElem?_map, hti, hlast]
  · simp only [variable_spiral_regular_ngon_transform, List.getElem?_map, hti, hlast]

theorem variable_spiral_ngon_transform_lenAligned (x y theta x' y' theta' : List ℝ)
    (start_rate end_rate : ℝ) (side_lengths : List ℝ) (i : ℕ)
    (hlast : theta.getLastD 0 = theta'.getLastD 0) (hti : theta[i]? = theta'[i]?) :
    LenAligned (fun u v t =>
        variable_spiral_ngon_transform u v t start_rate end_rate side_lengths)
      x y theta x' y' theta' i := by
  unfold LenAligned variable_spiral_ngon_transform
  refine ⟨?_, ?_, ?_, ?_⟩
  · simp [variable_spiral_regular_ngon_transform]
  · simp [variable_spiral_regular_ngon_transform]
  · simp only [variable_spiral_regular_ngon_transform, List.getElem?_map, hti, hlast]
  · simp only [variable_spiral_regular_ngon_transform, List.getElem?_map, hti, hlast]

theorem spirograph_rectangle_transform_lenAligned (x y theta x' y' theta' : List ℝ)
    (rect_width rect_height gear_radius tracing_point_dist : ℝ) (i : ℕ)
    (hx : x.length = theta.length) (hy : y.length = theta.length)
    (hxi : x[i]? = x'[i]?) (hyi : y[i]? = y'[i]?) (hti : theta[i]? = theta'[i]?) :
    LenAligned (fun u v t =>
        spirograph_rectangle_transform u v t rect_width rect_height gear_radius tracing_point_dist)
      x y theta x' y' theta' i := by
  unfold LenAligned
  refine ⟨?_, ?_, ?_, ?_⟩
  · simp [spirograph_rectangle_transform, hx]
  · simp [spirograph_rectangle_transform, hy]
  · simp only [spirograph_rectangle_transform, zipWith_getElem?_eq, hxi, hti]
  · simp only [spirograph_rectangle_transform, zipWith_getElem?_eq, hyi, hti]

theorem spirograph_transform_exceptLenAligned (x y theta x' y' theta' : List ℝ) (R r d : ℝ)
    (mode : String) (i : ℕ) (hm : mode = "hypotrochoid" ∨ mode = "epitrochoid")
    (hx : x.length = theta.length) (hy : y.length = theta.length)
    (hxi : x[i]? = x'[i]?) (hyi : y[i]? = y'[i]?) (hti : theta[i]? = theta'[i]?) :
    ExceptLenAligned (fun u v t => spirograph_transform u v t R r d mode)
      x y theta x' y' theta' i := by
  unfold ExceptLenAligned
  rcases hm with hm | hm <;> subst hm <;> refine ⟨?_, ?_⟩
  · simp [spirograph_transform, Except.map, hx, hy]
  · simp only [spirograph_transform, if_pos]
    simp only [Except.map, zipWith_getElem?_eq, hxi, hyi, hti]
  · simp [spirograph_transform, Except.map, hx, hy]
  · simp [spirograph_transform, Except.map, zipWith_getElem?_eq, hxi, hyi, hti]

theorem elliptical_spirograph_transform_exceptLenAligned (x y theta x' y' theta' : List ℝ)
    (R r d a b : ℝ) (mode : String) (i : ℕ)
    (hm : mode = "hypotrochoid" ∨ mode = "epitrochoid")
    (hx : x.length = theta.length) (hy : y.length = theta.length)
    (hxi : x[i]? = x'[i]?) (hyi : y[i]? = y'[i]?) (hti : theta[i]? = theta'[i]?) :
    ExceptLenAligned (fun u v t => elliptical_spirograph_transform u v t R r d a b mode)
      x y theta x' y' theta' i := by
  unfold ExceptLenAligned
  rcases hm with hm | hm <;> subst hm <;> refine ⟨?_, ?_⟩
  · simp [elliptical_spirograph_transform, Except.map, hx, hy]
  · simp only [elliptical_spirograph_transform, if_pos]
    simp only [Except.map, zipWith_getElem?_eq, hxi, hyi, hti]
  · simp [elliptical_spirograph_transform, Except.map, hx, hy]
  · simp [elliptical_spirograph_transform, Except.map, zipWith_getElem?_eq, hxi, hyi, hti]

theorem polygon_spirograph_transform_exceptLenAligned (x y theta x' y' theta' : List ℝ)
    (R n d : ℝ) (mode : String) (i : ℕ)
    (hm : mode = "hypocyclogon" ∨ mode = "epicyclogon")
    (hx : x.length = theta.length) (hy : y.length = theta.length)
    (hxi : x[i]? = x'[i]?) (hyi : y[i]? = y'[i]?) (hti : theta[i]? = theta'[i]?) :
    ExceptLenAligned (fun u v t => polygon_spirograph_transform u v t R n d mode)
      x y theta x' y' theta' i := by
  unfold ExceptLenAligned
  rcases hm with hm | hm <;> subst hm <;> refine ⟨?_, ?_⟩
  · simp [polygon_spirograph_transform, Except.map, hx, hy]
  · simp only [polygon_spirograph_transform, if_pos]
    simp only [Except.map, zipWith_getElem?_eq, hxi, hyi, hti]
  · simp [polygon_spirograph_transform, Except.map, hx, hy]
  · simp [polygon_spirograph_transform, Except.map, zipWith_getElem?_eq, hxi, hyi, hti]

theorem paper_rotation_transform_non_linear_exceptLenAligned (x y theta x' y' theta' : List ℝ)
    (degrees : ℝ) (s : String) (i : ℕ)
    (hs : s = "linear" ∨ s = "quadratic" ∨ s = "sinusoidal")
    (hx : x.length = theta.length) (hy : y.length = theta.length)
    (hlast : theta.getLastD 0 = theta'.getLastD 0)
    (hxi : x[i]? = x'[i]?) (hyi : y[i]? = y'[i]?) (hti : theta[i]? = theta'[i]?) :
    ExceptLenAligned (fun u v t => paper_rotation_transform_non_linear u v t degrees (.name s))
      x y theta x' y' theta' i := by
  unfold ExceptLenAligned
  simp only [List.getLastD_eq_getLast?] at hlast
  rcases hs with hs | hs | hs <;> subst hs <;>
    refine ⟨by simp [paper_rotation_transform_non_linear, Except.map, zipWith3_length, hx, hy], ?_⟩ <;>
    simp [paper_rotation_transform_non_linear, Except.map, zipWith3_getElem?, hxi, hyi, hti, hlast]

theorem paper_rotation_transform_non_linear_callable_exceptLenAligned
    (x y theta x' y' theta' : List ℝ) (degrees : ℝ) (f : ℝ → ℝ) (i : ℕ)
    (hx : x.length = theta.length) (hy : y.length = theta.length)
    (hlast : theta.getLastD 0 = theta'.getLastD 0)
    (hxi : x[i]? = x'[i]?) (hyi : y[i]? = y'[i]?) (hti : theta[i]? = theta'[i]?) :
    ExceptLenAligned (fun u v t => paper_rotation_transform_non_linear u v t degrees (.callable f))
      x y theta x' y' theta' i := by
  unfold ExceptLenAligned
  simp only [List.getLastD_eq_getLast?] at hlast
  refine ⟨by simp [paper_rotation_transform_non_linear, Except.map, zipWith3_length, hx, hy], ?_⟩
  simp [paper_rotation_transform_non_linear, Except.map, zipWith3_getElem?, hxi, hyi, hti, hlast]

/-- Claim C3: every transform in the library preserves sequence length and
index alignment: on equal-length inputs with at least one sample and a
nonzero final theta element, both outputs have the length of theta, and the
output sample at any index i is already determined by the input samples at
index i together with the final theta element (two runs agreeing there
agree at i).  For the raising transforms this holds under each recognized
mode, and the call succeeds. -/
theorem c3_transforms_preserve_length_and_alignment
    (x y theta x' y' theta' : List ℝ) (i : ℕ)
    (radius speed x_offset y_offset scale_x scale_y rotation_angle degrees
      spiral_rate frequency total_distance movement_angle_degrees const
      a b start_rate end_rate side1 side2 side3 R r d n
      rect_width rect_height gear_radius tracing_point_dist scale offset_x offset_y : ℝ)
    (side_lengths : List ℝ) (svg_path : SvgPath) (f : ℝ → ℝ)
    (hx : x.length = theta.length) (hy : y.length = theta.length)
    (hne : theta ≠ []) (hTnz : theta.getLastD 0 ≠ 0) (hi : i < theta.length)
    (hlast : theta.getLastD 0 = theta'.getLastD 0)
    (hxi : x[i]? = x'[i]?) (hyi : y[i]? = y'[i]?) (hti : theta[i]? = theta'[i]?) :
    LenAligned (fun u v t => circular_motion u v t radius speed) x y theta x' y' theta' i
    ∧ LenAligned (fun u v t =>
        translate_scale_rotate_transform u v t x_offset y_offset scale_x scale_y rotation_angle)
        x y theta x' y' theta' i
    ∧ LenAligned (fun u v t => paper_rotation u v t degrees) x y theta x' y' theta' i
    ∧ LenAligned (fun u v t => mystery_lines u v t spiral_rate frequency) x y theta x' y' theta' i
    ∧ LenAligned (fun u v t =>
        linear_translation_transform u v t total_distance movement_angle_degrees)
        x y theta x' y' theta' i
    ∧ LenAligned (fun u v t => svg_path_transform u v t svg_path scale offset_x offset_y)
        x y theta x' y' theta' i
    ∧ LenAligned (fun u v t => spiral_transform u v t spiral_rate a b) x y theta x' y' theta' i
    ∧ LenAligned (fun u v t => spiral_oscillator u v t spiral_rate frequency const a b)
        x y theta x' y' theta' i
    ∧ LenAligned (fun u v t => variable_spiral_transform u v t start_rate end_rate a b)
        x y theta x' y' theta' i
    ∧ LenAligned (fun u v t =>
        variable_spiral_triangle_transform u v t start_rate end_rate side1 side2 side3)
        x y theta x' y' theta' i
    ∧ LenAligned (fun u v t =>
        variable_spiral_regular_ngon_transform u v t start_rate end_rate side_lengths)
        x y theta x' y' theta' i
    ∧ LenAligned (fun u v t =>
        variable_spiral_ngon_transform u v t start_rate end_rate side_lengths)
        x y theta x' y' theta' i
    ∧ LenAligned (fun u v t =>
        spirograph_rectangle_transform u v t rect_width rect_height gear_radius tracing_point_dist)
        x y theta x' y' theta' i
    ∧ ExceptLenAligned (fun u v t => spirograph_transform u v t R r d (r"hypotrochoid"))
        x y theta x' y' theta' i
    ∧ ExceptLenAligned (fun u v t => spirograph_transform u v t R r d (r"epitrochoid"))
        x y theta x' y' theta' i
    ∧ ExceptLenAligned (fun u v t =>
        elliptical_spirograph_transform u v t R r d a b (r"hypotrochoid"))
        x y theta x' y' theta' i
    ∧ ExceptLenAligned (fun u v t =>
        elliptical_spirograph_transform u v t R r d a b (r"epitrochoid"))
        x y theta x' y' theta' i
    ∧ ExceptLenAligned (fun u v t => polygon_spirograph_transform u v t R n d (r"hypocyclogon"))
        x y theta x' y' theta' i
    ∧ ExceptLenAligned (fun u v t => polygon_spirograph_transform u v t R n d (r"epicyclogon"))
        x y theta x' y' theta' i
    ∧ ExceptLenAligned (fun u v t =>
        paper_rotation_transform_non_linear u v t degrees (.name (r"linear")))
        x y theta x' y' theta' i
    ∧ ExceptLenAligned (fun u v t =>
        paper_rotation_transform_non_linear u v t degrees (.name (r"quadratic")))
        x y theta x' y' theta' i
    ∧ ExceptLenAligned (fun u v t =>
        paper_rotation_transform_non_linear u v t degrees (.name (r"sinusoidal")))
        x y theta x' y' theta' i
    ∧ ExceptLenAligned (fun u v t =>
        paper_rotation_transform_non_linear u v t degrees (.callable f))
        x y theta x' y' theta' i :=
  ⟨circular_motion_lenAligned x y theta x' y' theta' radius speed i hx hy hxi hyi hti,
   translate_scale_rotate_transform_lenAligned x y theta x' y' theta'
     x_offset y_offset scale_x scale_y rotation_angle i hx hy hxi hyi,
   paper_rotation_lenAligned x y theta x' y' theta' degrees i hx hy hlast hxi hyi hti,
   mystery_lines_lenAligned x y theta x' y' theta' spiral_rate frequency i hx hy hxi hyi hti,
   linear_translation_transform_lenAligned x y theta x' y' theta'
     total_distance movement_angle_degrees i hx hy hlast hxi hyi hti,
   svg_path_transform_lenAligned x y theta x' y' theta' svg_path scale offset_x offset_y i
     hlast hti,
   spiral_transform_lenAligned x y theta x' y' theta' spiral_rate a b i hx hy hxi hyi hti,
   spiral_oscillator_lenAligned x y theta x' y' theta' spiral_rate frequency const a b i
     hx hy hxi hyi hti,
   variable_spiral_transform_lenAligned x y theta x' y' theta' start_rate end_rate a b i
     hx hy hlast hxi hyi hti,
   variable_spiral_triangle_transform_lenAligned x y theta x' y' theta'
     start_rate end_rate side1 side2 side3 i hlast hti,
   variable_spiral_regular_ngon_transform_lenAligned x y theta x' y' theta'
     start_rate end_rate side_lengths i hlast hti,
   variable_spiral_ngon_transform_lenAligned x y theta x' y' theta'
     start_rate end_rate side_lengths i hlast hti,
   spirograph_rectangle_transform_lenAligned x y theta x' y' theta'
     rect_width rect_height gear_radius tracing_point_dist i hx hy hxi hyi hti,
   spirograph_transform_exceptLenAligned x y theta x' y' theta' R r d (r"hypotrochoid") i
     (Or.inl rfl) hx hy hxi hyi hti,
   spirograph_transform_exceptLenAligned x y theta x' y' theta' R r d (r"epitrochoid") i
     (Or.inr rfl) hx hy hxi hyi hti,
   elliptical_spirograph_transform_exceptLenAligned x y theta x' y' theta' R r d a b
     (r"hypotrochoid") i (Or.inl rfl) hx hy hxi hyi hti,
   elliptical_spirograph_transform_exceptLenAligned x y theta x' y' theta' R r d a b
     (r"epitrochoid") i (Or.inr rfl) hx hy hxi hyi hti,
   polygon_spirograph_transform_exceptLenAligned x y theta x' y' theta' R n d
     (r"hypocyclogon") i (Or.inl rfl) hx hy hxi hyi hti,
   polygon_spirograph_transform_exceptLenAligned x y theta x' y' theta' R n d
     (r"epicyclogon") i (Or.inr rfl) hx hy hxi hyi hti,
   paper_rotation_transform_non_linear_exceptLenAligned x y theta x' y' theta' degrees
     (r"linear") i (Or.inl rfl) hx hy hlast hxi hyi hti,
   paper_rotation_transform_non_linear_exceptLenAligned x y theta x' y' theta' degrees
     (r"quadratic") i (Or.inr (Or.inl rfl)) hx hy hlast hxi hyi hti,
   paper_rotation_transform_non_linear_exceptLenAligned x y theta x' y' theta' degrees
     (r"sinusoidal") i (Or.inr (Or.inr rfl)) hx hy hlast hxi hyi hti,
   paper_rotation_transform_non_linear_callable_exceptLenAligned x y theta x' y' theta'
     degrees f i hx hy hlast hxi hyi hti⟩

/-- Witness for claim C3, projecting the circular_motion length conjunct at
a concrete input. -/
theorem c3_transforms_preserve_length_and_alignment_witness :
    (circular_motion [0] [0] [1] 1 1).1.length = 1 :=
  (c3_transforms_preserve_length_and_alignment [0] [0] [1] [0] [0] [1] 0
    1 1 1 1 1 1 1 1 1 1 1 1 1 1 1 1 1 1 1 1 1 1 1 1 1 1 1 1 1 1 1
    [] ⟨0, fun _ => 0, fun _ => (0, 0)⟩ id
    rfl rfl (by simp) (by simp) (by simp) rfl rfl rfl rfl).1.1
